import Mathlib

/-!
Verification of `sv_rl/auto_experiments.py`.

The script enumerates a cartesian product of experiment hyperparameters,
launches each resulting command through a fixed-size worker pool, and hands
each worker a GPU index taken from a shared round-robin-initialized queue.

Embedding conventions:
* Python lists / dicts become Lean `List`s / association lists
  (dictionary lookup is `List.lookup`, first matching key).
* The Python float literal `0.5` is embedded by its printed token `"0.5"`,
  since only its textual interpolation into command strings matters here.
* The `Manager().Queue()` of device tokens becomes a `List Nat` (FIFO:
  `get` takes the head, `put` appends at the back); for the concurrency
  claims it is abstracted to a multiset with an explicit transition system.
* Exceptions are modelled by an explicit fail-point parameter for the
  worker and by an `Option`-valued command builder for the enumerator
  (a `KeyError` on a dict lookup is a `none`).
-/

/-- Source line 8: `which_gpus = [0, 1, 2, 3]`. -/
def which_gpus : List Nat := [0, 1, 2, 3]

/-- Source line 9: `max_worker_num = len(which_gpus) * 2`. -/
def max_worker_num : Nat := which_gpus.length * 2

/-- Source lines 10-12: `COMMANDS = ["python3 main.py "]`. -/
def COMMANDS : List String := ["python3 main.py "]

/-- Source line 13: `batch_sizes = [64]`. -/
def batch_sizes : List Nat := [64]

/-- Source lines 14-18: `maskps = [0.5]`; the float literal is embedded as
its printed decimal token. -/
def maskps : List String := ["0.5"]

/-- Source line 20: `me_types = ["svt"]`. -/
def me_types : List String := ["svt"]

/-- Source line 21: the `envs` list. -/
def envs : List String :=
  ["AlienNoFrameskip-v4", "AtlantisNoFrameskip-v4",
   "CrazyClimberNoFrameskip-v4", "IceHockeyNoFrameskip-v4"]

/-- Source line 23: `svrls = ["--svrl"]`. -/
def svrls : List String := ["--svrl"]

/-- Source lines 24-32: `env_name_map`, as an association list. -/
def env_name_map : List (String × String) :=
  [("AlienNoFrameskip-v4", "alien"),
   ("AtlantisNoFrameskip-v4", "atlantis"),
   ("CrazyClimberNoFrameskip-v4", "crazy_climber"),
   ("IceHockeyNoFrameskip-v4", "ice_hockey"),
   ("BreakoutNoFrameskip-v4", "breakout"),
   ("FrostbiteNoFrameskip-v4", "frostbite"),
   ("ZaxxonNoFrameskip-v4", "zaxxon")]

/-- Source lines 33-41: `timestamp_map`, as an association list. -/
def timestamp_map : List (String × Nat) :=
  [("AlienNoFrameskip-v4", 15000000),
   ("AtlantisNoFrameskip-v4", 30000000),
   ("CrazyClimberNoFrameskip-v4", 15000000),
   ("IceHockeyNoFrameskip-v4", 15000000),
   ("BreakoutNoFrameskip-v4", 15000000),
   ("FrostbiteNoFrameskip-v4", 10000000),
   ("ZaxxonNoFrameskip-v4", 15000000)]

/-- The whole module-level configuration of the script, gathered so the
enumerator can be stated for arbitrary grids and lookup tables as well as
for the declared ones. -/
structure Config where
  envs : List String
  me_types : List String
  maskps : List String
  batch_sizes : List Nat
  svrls : List String
  commands : List String
  env_name_map : List (String × String)
  timestamp_map : List (String × Nat)
deriving Repr, DecidableEq

/-- The configuration literally declared at module level in the source. -/
def theConfig : Config :=
  ⟨envs, me_types, maskps, batch_sizes, svrls, COMMANDS, env_name_map, timestamp_map⟩

/-- One iteration of the innermost loop body of `run` (lines 60-65): the
loop variables of the six nested `for` loops. -/
structure Combo where
  env : String
  me_type : String
  maskp : String
  batch_size : Nat
  svrl : String
  command : String
deriving Repr, DecidableEq

/-- The nested iteration of `run` (lines 60-65): environment outermost,
then estimator type, mask probability, batch size, variant flag, and the
base-command list innermost. -/
def combos (c : Config) : List Combo :=
  c.envs.flatMap fun env =>
    c.me_types.flatMap fun me =>
      c.maskps.flatMap fun p =>
        c.batch_sizes.flatMap fun b =>
          c.svrls.flatMap fun s =>
            c.commands.map fun cmd => ⟨env, me, p, b, s, cmd⟩

/-- Lines 66-69: `svrl_string = "svrl" if svrl == "--svrl" else ""`. -/
def svrl_string (svrl : String) : String := if svrl = "--svrl" then "svrl" else ""

/-- The output tag interpolated at the end of line 70:
`{env_name_map[env]}_dqn_{svrl_string}_{me_type}_{maskp}_{batch_size}`.
`none` when `env` is absent from `env_name_map` (Python `KeyError`). -/
def makeTag (c : Config) (x : Combo) : Option String :=
  (c.env_name_map.lookup x.env).map fun nm =>
    nm ++ "_dqn_" ++ svrl_string x.svrl ++ "_" ++ x.me_type ++ "_" ++ x.maskp
       ++ "_" ++ toString x.batch_size

/-- Line 70: `command += f'--env {env} {svrl} --me_type {me_type} --maskp
{maskp} --batch-size {batch_size} --num_timesteps {timestamp_map[env]}
{tag}'`. `none` when either dict lookup raises `KeyError`. -/
def makeCommand (c : Config) (x : Combo) : Option String :=
  match c.timestamp_map.lookup x.env, makeTag c x with
  | some ts, some tag =>
      some (x.command ++ "--env " ++ x.env ++ " " ++ x.svrl
            ++ " --me_type " ++ x.me_type ++ " --maskp " ++ x.maskp
            ++ " --batch-size " ++ toString x.batch_size
            ++ " --num_timesteps " ++ toString ts ++ " " ++ tag)
  | _, _ => none

/-- Result of running the submission loop of `run`: the commands passed to
`apply_async` in order, and whether a `KeyError` escaped the loop. -/
structure RunResult where
  submitted : List String
  failure : Bool
deriving Repr, DecidableEq

/-- The submission loop of `run` (lines 60-75) over an explicit combo
list: each combination builds its command (line 70) and submits it
(line 72); a `KeyError` during the f-string interpolation aborts the loop
before that combination is submitted. -/
def runSim (c : Config) : List Combo → RunResult
  | [] => ⟨[], false⟩
  | x :: rest =>
    match makeCommand c x with
    | some cmd =>
        let r := runSim c rest
        ⟨cmd :: r.submitted, r.failure⟩
    | none => ⟨[], true⟩

/-- Function `run`'s full enumeration and submission over a configuration. -/
def runEnum (c : Config) : RunResult := runSim c (combos c)

/-- A configuration identical to the declared one except that a second
environment, absent from both lookup tables, follows the first declared
environment. -/
def badConfig : Config :=
  { theConfig with envs := ["AlienNoFrameskip-v4", "GopherNoFrameskip-v4"] }

/-- A configuration identical to the declared one except that the
estimator-type list contains the same entry twice; every environment is
still covered by both lookup tables. -/
def dupConfig : Config :=
  { theConfig with me_types := ["svt", "svt"] }

/-- Function `_init_device_queue` (lines 42-49) generalized over the device list the
source reads from the module-level `which_gpus`: token `i` is
`gpus[i % len(gpus)]`, put into a FIFO queue (here: a list, head = front). -/
def init_device_queue_over (gpus : List Nat) (max_worker_num : Nat) : List Nat :=
  (List.range max_worker_num).map fun i => gpus.getD (i % gpus.length) 0

/-- Function `_init_device_queue(max_worker_num)` exactly as in the source,
reading
the module-level `which_gpus`. -/
def init_device_queue (n : Nat) : List Nat := init_device_queue_over which_gpus n

/-- Where, if anywhere, an exception is raised inside the `try` block of
`_worker` (lines 81-91): during the jitter sleep (line 82), during
`device_queue.get()` itself (line 84, before a token is removed), or at
some point after the token was acquired and before `device_queue.put`
(lines 86-89: logging or `os.system` raising). -/
inductive FailPoint
  | noFail
  | duringJitter
  | duringAcquire
  | afterAcquire
deriving Repr, DecidableEq

/-- Observable outcome of one `_worker` invocation: the device queue
afterwards, whether `os.system` was invoked, whether the `except` branch
logged the traceback (line 93), and whether the exception was re-raised
(line 94). -/
structure WorkerOutcome where
  pool : List Nat
  ran : Bool
  logged : Bool
  reraised : Bool
deriving Repr, DecidableEq

/-- Function `_worker` (lines 79-94) on a device queue, as a function of the fail
point. `none` means the invocation blocks forever in `device_queue.get()`
(empty queue) and never produces an outcome. On the failure-free path the
head token is taken (line 84), the command runs (line 89), and the token is
put back at the queue's tail (line 91); any exception is caught, logged and
re-raised (lines 92-94), and only a failure strictly after the `get` leaves
the queue short one token. -/
def worker : FailPoint → List Nat → Option WorkerOutcome
  | .duringJitter, pool => some ⟨pool, false, true, true⟩
  | .duringAcquire, pool => some ⟨pool, false, true, true⟩
  | .afterAcquire, pool =>
    match pool with
    | [] => none
    | _ :: rest => some ⟨rest, false, true, true⟩
  | .noFail, pool =>
    match pool with
    | [] => none
    | d :: rest => some ⟨rest ++ [d], true, false, false⟩

/-- The jitter `time.sleep(random.uniform(0, 10))` (line 82) with the drawn
duration made explicit: the duration is consumed by the sleep and reported,
but the state outcome is `worker`'s. -/
def workerWithJitter (jitter : ℚ) (fp : FailPoint) (pool : List Nat) :
    Option (ℚ × WorkerOutcome) :=
  (worker fp pool).map fun o => (jitter, o)

/-- The enumerator with an explicit random stream in scope: `run`
(lines 51-77) never draws from the random source (the script's only random
call is the jitter in `_worker`), so the stream is an unused argument. -/
def runEnumWithRand (c : Config) (_rand : Nat → ℚ) : RunResult := runEnum c

/-- Source line 89: `os.system("CUDA_VISIBLE_DEVICES=%d " % device + command)`. -/
def fullInvocation (device : Nat) (command : String) : String :=
  "CUDA_VISIBLE_DEVICES=" ++ toString device ++ " " ++ command

/-- Shared state of the device-token pool together with each worker's
currently held tokens (`held` has one multiset per worker process). -/
structure PoolState where
  pool : Multiset Nat
  held : List (Multiset Nat)
deriving DecidableEq

/-- Atomic transitions on the shared device queue, as executed by the
workers: `acquire` is `device_queue.get()` (line 84, atomically removes one
token and hands it to worker `w`); `release` is `device_queue.put(device)`
(line 91, returns a held token). -/
inductive PStep : PoolState → PoolState → Prop
  | acquire (s : PoolState) (w : Nat) (d : Nat) (hw : w < s.held.length)
      (hd : d ∈ s.pool) :
      PStep s ⟨s.pool.erase d, s.held.set w (d ::ₘ s.held.get ⟨w, hw⟩)⟩
  | release (s : PoolState) (w : Nat) (d : Nat) (hw : w < s.held.length)
      (hd : d ∈ s.held.get ⟨w, hw⟩) :
      PStep s ⟨d ::ₘ s.pool, s.held.set w ((s.held.get ⟨w, hw⟩).erase d)⟩

/-- Reachability under any interleaving of acquires and releases. -/
def PReach : PoolState → PoolState → Prop := Relation.ReflTransGen PStep

/-- All tokens outstanding across the workers. -/
def heldSum (s : PoolState) : Multiset Nat := (s.held.foldr (· + ·) 0)

/-- The initial pool state: the round-robin device queue as a multiset,
`n` workers holding nothing. -/
def initState (n : Nat) : PoolState :=
  ⟨(init_device_queue max_worker_num : Multiset Nat), List.replicate n 0⟩

lemma foldr_add_set (l : List (Multiset Nat)) :
    ∀ (w : Nat) (x g : Multiset Nat), l.get? w = some g →
      ((l.set w x).foldr (· + ·) 0) + g = (l.foldr (· + ·) 0) + x := by
  induction l with
  | nil => intro w x g hg; simp at hg
  | cons hd tl ih =>
    intro w x g hg
    cases w with
    | zero =>
      simp only [List.get?] at hg
      cases hg
      simp only [List.set, List.foldr]
      abel
    | succ w =>
      simp only [List.get?] at hg
      simp only [List.set, List.foldr]
      rw [add_assoc, ih w x g hg, ← add_assoc]

/-- One transition keeps the total token content (pool plus everything
held) unchanged, and keeps the worker count. -/
lemma pstep_conserve {s t : PoolState} (h : PStep s t) :
    t.pool + heldSum t = s.pool + heldSum s ∧ t.held.length = s.held.length := by
  cases h with
  | acquire w d hw hd =>
    constructor
    · have hget : s.held.get? w = some (s.held.get ⟨w, hw⟩) := List.get?_eq_get hw
      have hset := foldr_add_set s.held w (d ::ₘ s.held.get ⟨w, hw⟩)
        (s.held.get ⟨w, hw⟩) hget
      have h1 : {d} + s.pool.erase d = s.pool := by
        rw [Multiset.singleton_add, Multiset.cons_erase hd]
      show s.pool.erase d + heldSum ⟨s.pool.erase d, _⟩ = s.pool + heldSum s
      unfold heldSum
      simp only
      apply add_right_cancel (b := s.held.get ⟨w, hw⟩)
      rw [add_assoc, hset, ← Multiset.singleton_add]
      conv_rhs => rw [← h1]
      abel
    · simp [List.length_set]
  | release w d hw hd =>
    constructor
    · have hget : s.held.get? w = some (s.held.get ⟨w, hw⟩) := List.get?_eq_get hw
      have hset := foldr_add_set s.held w ((s.held.get ⟨w, hw⟩).erase d)
        (s.held.get ⟨w, hw⟩) hget
      have h1 : {d} + (s.held.get ⟨w, hw⟩).erase d = s.held.get ⟨w, hw⟩ := by
        rw [Multiset.singleton_add, Multiset.cons_erase hd]
      show d ::ₘ s.pool + heldSum ⟨d ::ₘ s.pool, _⟩ = s.pool + heldSum s
      unfold heldSum
      simp only
      apply add_right_cancel (b := s.held.get ⟨w, hw⟩)
      rw [add_assoc, hset, ← Multiset.singleton_add]
      conv_rhs => rw [← h1]
      abel
    · simp [List.length_set]

/-- Conservation along any reachable execution: the pool plus all held
tokens is always the initial pool content, and the worker count is
fixed. -/
lemma preach_conserve {s t : PoolState} (h : PReach s t) :
    t.pool + heldSum t = s.pool + heldSum s ∧ t.held.length = s.held.length := by
  induction h with
  | refl => exact ⟨rfl, rfl⟩
  | tail _ hstep ih =>
    have := pstep_conserve hstep
    exact ⟨this.1.trans ih.1, this.2.trans ih.2⟩

/-- Helper to take one step towards an explicitly given state. -/
lemma pstep_acquire_to (s t : PoolState) (w d : Nat) (hw : w < s.held.length)
    (hd : d ∈ s.pool)
    (ht : t = ⟨s.pool.erase d, s.held.set w (d ::ₘ s.held.get ⟨w, hw⟩)⟩) :
    PStep s t := ht ▸ PStep.acquire s w d hw hd

/-- Helper to take one release step towards an explicitly given state. -/
lemma pstep_release_to (s t : PoolState) (w d : Nat) (hw : w < s.held.length)
    (hd : d ∈ s.held.get ⟨w, hw⟩)
    (ht : t = ⟨d ::ₘ s.pool, s.held.set w ((s.held.get ⟨w, hw⟩).erase d)⟩) :
    PStep s t := ht ▸ PStep.release s w d hw hd


lemma countP_range_mod (K j : Nat) (hK : 0 < K) (hj : j < K) :
    ∀ W, (List.range W).countP (fun i => i % K == j)
      = W / K + (if j < W % K then 1 else 0)
  | 0 => by simp
  | W + 1 => by
    rw [List.range_succ, List.countP_append, countP_range_mod K j hK hj W]
    have hone : List.countP (fun i => i % K == j) [W] = if W % K = j then 1 else 0 := by
      simp [List.countP_cons]
    rw [hone]
    have hr : W % K < K := Nat.mod_lt _ hK
    have hW : K * (W / K) + W % K = W := Nat.div_add_mod W K
    rcases Nat.lt_or_ge (W % K + 1) K with hlt | hge
    · have hW1 : W + 1 = K * (W / K) + (W % K + 1) := by omega
      have hdiv : (W + 1) / K = W / K := by
        rw [hW1, Nat.mul_add_div hK, Nat.div_eq_of_lt hlt, Nat.add_zero]
      have hmod : (W + 1) % K = W % K + 1 := by
        rw [hW1, Nat.mul_add_mod, Nat.mod_eq_of_lt hlt]
      rw [hdiv, hmod]
      split_ifs <;> omega
    · have hK1 : W % K + 1 = K := by omega
      have hmul : K * (W / K + 1) = K * (W / K) + K := by ring
      have hW1 : W + 1 = K * (W / K + 1) := by rw [hmul]; omega
      have hdiv : (W + 1) / K = W / K + 1 := by
        rw [hW1, Nat.mul_div_cancel_left _ hK]
      have hmod : (W + 1) % K = 0 := by rw [hW1, Nat.mul_mod_right]
      rw [hdiv, hmod]
      split_ifs <;> omega

/-- How often device `d` occurs in the round-robin initial fill: its
residue class of insertion indices below `W`. -/
lemma count_init_device (gpus : List Nat) (hne : gpus ≠ []) (hnd : gpus.Nodup)
    (W d : Nat) (hd : d ∈ gpus) :
    (init_device_queue_over gpus W).count d
      = W / gpus.length + (if gpus.indexOf d < W % gpus.length then 1 else 0) := by
  have hK : 0 < gpus.length := List.length_pos.mpr hne
  have hidx : gpus.indexOf d < gpus.length := List.indexOf_lt_length.mpr hd
  have hg : gpus.get ⟨gpus.indexOf d, hidx⟩ = d := List.indexOf_get hidx
  unfold init_device_queue_over
  rw [show ((List.range W).map fun i => gpus.getD (i % gpus.length) 0).count d
        = (List.range W).countP (fun i => gpus.getD (i % gpus.length) 0 == d) by
      rw [List.count, List.countP_map]; rfl]
  rw [List.countP_congr (q := fun i => i % gpus.length == gpus.indexOf d) ?_]
  · exact countP_range_mod _ _ hK hidx W
  · intro i _
    have hmod : i % gpus.length < gpus.length := Nat.mod_lt _ hK
    simp only [beq_iff_eq]
    rw [List.getD_eq_getElem _ _ hmod]
    constructor
    · intro h
      have h2 : gpus.get ⟨i % gpus.length, hmod⟩ = gpus.get ⟨gpus.indexOf d, hidx⟩ := by
        rw [hg, List.get_eq_getElem]; exact h
      exact congrArg Fin.val ((List.Nodup.get_inj_iff hnd).mp h2)
    · intro h
      have h3 : gpus.get ⟨i % gpus.length, hmod⟩ = d := by
        rw [← hg]
        congr 1
        exact Fin.ext h
      exact (List.get_eq_getElem gpus ⟨i % gpus.length, hmod⟩).symm.trans h3

lemma length_flatMap_const {α β : Type} (l : List α) (f : α → List β) (n : Nat)
    (h : ∀ a ∈ l, (f a).length = n) : (l.flatMap f).length = l.length * n := by
  induction l with
  | nil => simp
  | cons hd tl ih =>
    rw [List.flatMap_cons, List.length_append, h hd (by simp),
        ih (fun a ha => h a (List.mem_cons_of_mem hd ha))]
    simp [Nat.succ_mul, Nat.add_comm]

/-- Membership in the nested loop product: each field ranges over its
declared list. -/
lemma mem_combos_iff {c : Config} {x : Combo} :
    x ∈ combos c ↔ x.env ∈ c.envs ∧ x.me_type ∈ c.me_types ∧ x.maskp ∈ c.maskps
      ∧ x.batch_size ∈ c.batch_sizes ∧ x.svrl ∈ c.svrls ∧ x.command ∈ c.commands := by
  constructor
  · intro hx
    simp only [combos, List.mem_flatMap, List.mem_map] at hx
    obtain ⟨env, he, me, hm, p, hp, b, hb, s, hs, cmd, hc, rfl⟩ := hx
    exact ⟨he, hm, hp, hb, hs, hc⟩
  · intro ⟨he, hm, hp, hb, hs, hc⟩
    simp only [combos, List.mem_flatMap, List.mem_map]
    exact ⟨x.env, he, x.me_type, hm, x.maskp, hp, x.batch_size, hb, x.svrl, hs,
      x.command, hc, rfl⟩

lemma combos_length (c : Config) :
    (combos c).length = c.envs.length * (c.me_types.length * (c.maskps.length
      * (c.batch_sizes.length * (c.svrls.length * c.commands.length)))) := by
  unfold combos
  apply length_flatMap_const; intro a _
  apply length_flatMap_const; intro a _
  apply length_flatMap_const; intro a _
  apply length_flatMap_const; intro a _
  apply length_flatMap_const; intro a _
  simp

/-- If every combination's lookups succeed then `run` submits every
combination's command, in combination order, and no error escapes. -/
lemma runSim_all_some (c : Config) :
    ∀ l : List Combo, (∀ x ∈ l, (makeCommand c x).isSome) →
      runSim c l = ⟨l.filterMap (makeCommand c), false⟩ := by
  intro l hl
  induction l with
  | nil => rfl
  | cons x rest ih =>
    obtain ⟨cmd, hcmd⟩ := Option.isSome_iff_exists.mp (hl x (by simp))
    rw [runSim, List.filterMap_cons, hcmd,
        ih (fun y hy => hl y (List.mem_cons_of_mem x hy))]

lemma length_filterMap_all_some (c : Config) :
    ∀ l : List Combo, (∀ x ∈ l, (makeCommand c x).isSome) →
      (l.filterMap (makeCommand c)).length = l.length := by
  intro l hl
  induction l with
  | nil => rfl
  | cons x rest ih =>
    obtain ⟨cmd, hcmd⟩ := Option.isSome_iff_exists.mp (hl x (by simp))
    rw [List.filterMap_cons, hcmd, List.length_cons,
        ih (fun y hy => hl y (List.mem_cons_of_mem x hy)), List.length_cons]

lemma makeCommand_isSome_of_lookups {c : Config} {x : Combo}
    (hts : (c.timestamp_map.lookup x.env).isSome)
    (hnm : (c.env_name_map.lookup x.env).isSome) :
    (makeCommand c x).isSome := by
  obtain ⟨ts, h1⟩ := Option.isSome_iff_exists.mp hts
  obtain ⟨nm, h2⟩ := Option.isSome_iff_exists.mp hnm
  rw [makeCommand, makeTag, h1, h2]
  rfl

/-- The submission loop stops exactly at the first combination whose
lookup fails: evenything before it is submitted, nothing after. -/
lemma runSim_fails_at_first (c : Config) :
    ∀ (l1 : List Combo) (x : Combo) (l2 : List Combo),
      (∀ y ∈ l1, (makeCommand c y).isSome) → makeCommand c x = none →
      runSim c (l1 ++ x :: l2) = ⟨l1.filterMap (makeCommand c), true⟩ := by
  intro l1 x l2 h1 hx
  induction l1 with
  | nil => simp [runSim, hx]
  | cons y rest ih =>
    obtain ⟨cmd, hcmd⟩ := Option.isSome_iff_exists.mp (h1 y (by simp))
    rw [List.cons_append, runSim, hcmd, List.filterMap_cons, hcmd,
        ih (fun z hz => h1 z (List.mem_cons_of_mem y hz))]

/-- C1: on a worker invocation that completes the external command
normally, the acquired device token is put back (line 91), so the queue
keeps the same multiset of tokens; on an exception raised after the token
was acquired (line 84) and before the release (line 91), the token is not
returned — the queue is left permanently one token short — and the failure
is logged and the exception re-raised (lines 92-94). -/
theorem c1_release_on_success_leak_on_failure (d : Nat) (rest : List Nat) :
    (worker .noFail (d :: rest) = some ⟨rest ++ [d], true, false, false⟩
      ∧ ((rest ++ [d] : List Nat) : Multiset Nat) = ((d :: rest : List Nat) : Multiset Nat)
      ∧ (rest ++ [d]).length = (d :: rest).length)
    ∧ (worker .afterAcquire (d :: rest) = some ⟨rest, false, true, true⟩
      ∧ rest.length + 1 = (d :: rest).length) := by
  refine ⟨⟨rfl, ?_, by simp⟩, rfl, by simp⟩
  exact Multiset.coe_eq_coe.mpr (List.perm_append_singleton d rest)

/-- C9: a worker invocation that fails before the token acquisition
completes (during the jitter sleep of line 82, or in `device_queue.get()`
itself) leaves the device queue unchanged: no token is removed, the
failure is logged and re-raised. -/
theorem c9_preacquire_failure_pool_unchanged (pool : List Nat) :
    worker .duringJitter pool = some ⟨pool, false, true, true⟩
    ∧ worker .duringAcquire pool = some ⟨pool, false, true, true⟩ :=
  ⟨rfl, rfl⟩

/-- C2 counterexample: with the first declared environment kept and a
second environment that is absent from both lookup tables, the run does
fail with a key-lookup error, but one task (the first environment's) has
already been submitted when the error is raised — not zero as claimed. -/
theorem c2_counterexample :
    (∃ e ∈ badConfig.envs, badConfig.timestamp_map.lookup e = none
        ∧ badConfig.env_name_map.lookup e = none)
    ∧ (runEnum badConfig).failure = true
    ∧ (runEnum badConfig).submitted.length = 1
    ∧ ¬ (runEnum badConfig).submitted.length = 0 := by decide

/-- C2 amended: when some combination's environment is missing from a
lookup table, the enumeration fails with the key-lookup error exactly at
the first such combination, before that combination (or any later one) is
submitted; the tasks of all earlier combinations have already been
submitted — so zero tasks have been submitted only when the very first
affected combination is reached first. -/
theorem c2_fail_at_first_missing_env (c : Config) (l1 : List Combo) (x : Combo)
    (l2 : List Combo) (hsplit : combos c = l1 ++ x :: l2)
    (h1 : ∀ y ∈ l1, (makeCommand c y).isSome)
    (hx : makeCommand c x = none) :
    runEnum c = ⟨l1.filterMap (makeCommand c), true⟩ := by
  rw [runEnum, hsplit]
  exact runSim_fails_at_first c l1 x l2 h1 hx

theorem c2_fail_at_first_missing_env_witness :
    runEnum badConfig =
      ⟨[⟨"AlienNoFrameskip-v4", "svt", "0.5", 64, "--svrl",
        "python3 main.py "⟩].filterMap (makeCommand badConfig), true⟩ := by
  exact c2_fail_at_first_missing_env badConfig
    [⟨"AlienNoFrameskip-v4", "svt", "0.5", 64, "--svrl", "python3 main.py "⟩]
    ⟨"GopherNoFrameskip-v4", "svt", "0.5", 64, "--svrl", "python3 main.py "⟩
    [] (by decide) (by decide) (by decide)

/-- C3 counterexample: a grid whose environments are all covered by both
lookup tables but whose estimator-type list repeats an entry satisfies the
count formula yet produces commands that are not pairwise distinct and
output tags that are not unique — refuting the claim's universal
distinctness over every covered grid. -/
theorem c3_counterexample :
    (∀ e ∈ dupConfig.envs, (dupConfig.timestamp_map.lookup e).isSome
        ∧ (dupConfig.env_name_map.lookup e).isSome)
    ∧ dupConfig.commands.length = 1
    ∧ (runEnum dupConfig).submitted.length
        = dupConfig.envs.length * dupConfig.me_types.length * dupConfig.maskps.length
          * dupConfig.batch_sizes.length * dupConfig.svrls.length
    ∧ ¬ (runEnum dupConfig).submitted.Nodup
    ∧ ¬ ((combos dupConfig).filterMap (makeTag dupConfig)).Nodup := by decide

/-- C3, amended: for any grids whose environments appear in both lookup
tables (with the base-command list a singleton, as declared), the run
submits exactly `|envs| * |me_types| * |maskps| * |batch_sizes| * |svrls|`
commands, one per combination of the nested loops in declared order
(environment outermost, variant flag innermost), with no error; pairwise
distinctness of the commands and uniqueness of the output tags hold for
the declared configuration (they can fail for grids with repeated entries
or colliding tag interpolations), where the four resulting commands and
their tags are the expected ones. -/
theorem c3_enumeration_product (c : Config)
    (henv : ∀ e ∈ c.envs, (c.timestamp_map.lookup e).isSome
        ∧ (c.env_name_map.lookup e).isSome)
    (hcmd : c.commands.length = 1) :
    ((runEnum c).failure = false
      ∧ (runEnum c).submitted = (combos c).filterMap (makeCommand c)
      ∧ (runEnum c).submitted.length
          = c.envs.length * c.me_types.length * c.maskps.length
            * c.batch_sizes.length * c.svrls.length)
    ∧ ((runEnum theConfig).submitted =
        ["python3 main.py --env AlienNoFrameskip-v4 --svrl --me_type svt --maskp 0.5 --batch-size 64 --num_timesteps 15000000 alien_dqn_svrl_svt_0.5_64",
         "python3 main.py --env AtlantisNoFrameskip-v4 --svrl --me_type svt --maskp 0.5 --batch-size 64 --num_timesteps 30000000 atlantis_dqn_svrl_svt_0.5_64",
         "python3 main.py --env CrazyClimberNoFrameskip-v4 --svrl --me_type svt --maskp 0.5 --batch-size 64 --num_timesteps 15000000 crazy_climber_dqn_svrl_svt_0.5_64",
         "python3 main.py --env IceHockeyNoFrameskip-v4 --svrl --me_type svt --maskp 0.5 --batch-size 64 --num_timesteps 15000000 ice_hockey_dqn_svrl_svt_0.5_64"]
      ∧ (runEnum theConfig).submitted.Nodup
      ∧ (combos theConfig).filterMap (makeTag theConfig) =
        ["alien_dqn_svrl_svt_0.5_64", "atlantis_dqn_svrl_svt_0.5_64",
         "crazy_climber_dqn_svrl_svt_0.5_64", "ice_hockey_dqn_svrl_svt_0.5_64"]
      ∧ ((combos theConfig).filterMap (makeTag theConfig)).Nodup) := by
  have hall : ∀ x ∈ combos c, (makeCommand c x).isSome := by
    intro x hx
    have hmem := (mem_combos_iff.mp hx).1
    exact makeCommand_isSome_of_lookups (henv x.env hmem).1 (henv x.env hmem).2
  have hrun := runSim_all_some c (combos c) hall
  refine ⟨⟨?_, ?_, ?_⟩, by decide, by decide, by decide, by decide⟩
  · rw [runEnum, hrun]
  · rw [runEnum, hrun]
  · rw [runEnum, hrun]
    show ((combos c).filterMap (makeCommand c)).length = _
    rw [length_filterMap_all_some c _ hall, combos_length, hcmd]
    ring

theorem c3_enumeration_product_witness :
    (runEnum theConfig).failure = false
    ∧ (runEnum theConfig).submitted.length
        = theConfig.envs.length * theConfig.me_types.length * theConfig.maskps.length
          * theConfig.batch_sizes.length * theConfig.svrls.length := by
  have h := c3_enumeration_product theConfig (by decide) (by decide)
  exact ⟨h.1.1, h.1.2.2⟩

/-- C4: the round-robin initial fill produces exactly `W` tokens, the
`i`-th being `deviceIds[i % K]`, so with distinct device identifiers each
identifier occurs either `floor(W/K)` or `ceil(W/K)` times; the declared
fill is `[0, 1, 2, 3, 0, 1, 2, 3]`. -/
theorem c4_round_robin_fill (W K : Nat) (gpus : List Nat) (hne : gpus ≠ [])
    (hK : gpus.length = K) (hnd : gpus.Nodup) :
    ((init_device_queue_over gpus W).length = W
      ∧ (∀ i, i < W → (init_device_queue_over gpus W).getD i 0 = gpus.getD (i % K) 0)
      ∧ (∀ d ∈ gpus, (init_device_queue_over gpus W).count d = W / K
          ∨ (init_device_queue_over gpus W).count d = (W + K - 1) / K))
    ∧ init_device_queue max_worker_num = [0, 1, 2, 3, 0, 1, 2, 3] := by
  subst hK
  have hK0 : 0 < gpus.length := List.length_pos.mpr hne
  refine ⟨⟨by simp [init_device_queue_over], ?_, ?_⟩, by decide⟩
  · intro i hi
    have hlen : i < ((List.range W).map fun j => gpus.getD (j % gpus.length) 0).length := by
      simpa using hi
    rw [init_device_queue_over, List.getD_eq_getElem _ _ hlen, List.getElem_map,
        List.getElem_range]
  · intro d hd
    rw [count_init_device gpus hne hnd W d hd]
    rcases Nat.eq_zero_or_pos (W % gpus.length) with hz | hpos
    · left
      rw [hz]
      simp
    · have hr : W % gpus.length < gpus.length := Nat.mod_lt _ hK0
      have hWdm := Nat.div_add_mod W gpus.length
      have hmul : gpus.length * (W / gpus.length + 1)
          = gpus.length * (W / gpus.length) + gpus.length := by ring
      have e1 : W + gpus.length - 1
          = gpus.length * (W / gpus.length + 1) + (W % gpus.length - 1) := by
        generalize hA : gpus.length * (W / gpus.length) = t1 at hWdm hmul
        generalize hB : gpus.length * (W / gpus.length + 1) = t2 at hmul ⊢
        omega
      have hlt1 : W % gpus.length - 1 < gpus.length := by omega
      have hceil : (W + gpus.length - 1) / gpus.length = W / gpus.length + 1 := by
        rw [e1, Nat.mul_add_div hK0, Nat.div_eq_of_lt hlt1, Nat.add_zero]
      by_cases hlt : gpus.indexOf d < W % gpus.length
      · right
        rw [hceil, if_pos hlt]
      · left
        rw [if_neg hlt, Nat.add_zero]

theorem c4_round_robin_fill_witness :
    (init_device_queue_over [0, 1, 2, 3] 8).length = 8
    ∧ (init_device_queue_over [0, 1, 2, 3] 8).getD 5 0 = [0, 1, 2, 3].getD (5 % 4) 0
    ∧ ((init_device_queue_over [0, 1, 2, 3] 8).count 2 = 8 / 4
        ∨ (init_device_queue_over [0, 1, 2, 3] 8).count 2 = (8 + 4 - 1) / 4) := by
  have h := c4_round_robin_fill 8 4 [0, 1, 2, 3] (by decide) (by decide) (by decide)
  exact ⟨h.1.1, h.1.2.1 5 (by decide), h.1.2.2 2 (by decide)⟩

/-- C5: for the pool initialized round-robin with `W = 8` tokens over the
`K = 4` declared devices (each appearing twice), the number of outstanding
tokens never exceeds 8 in any reachable state; and there is an execution
that acquires all 8 tokens (one per worker, pool empty, 8 outstanding) and
then releases every acquired token, ending with the pool at cardinality 8
with exactly the initial multiset composition. -/
theorem c5_pool_round_trip :
    (∀ s : PoolState, PReach (initState 8) s →
      (heldSum s).card ≤ 8 ∧ s.pool.card + (heldSum s).card = 8)
    ∧ (∃ mid sfin : PoolState, PReach (initState 8) mid ∧ PReach mid sfin
        ∧ mid.pool = 0 ∧ (heldSum mid).card = 8
        ∧ sfin.pool = (initState 8).pool ∧ sfin.pool.card = 8 ∧ heldSum sfin = 0) := by
  constructor
  · intro s hs
    have hc := (preach_conserve hs).1
    have hz : heldSum (initState 8) = 0 := by decide
    rw [hz, add_zero] at hc
    have hcards := congrArg Multiset.card hc
    rw [Multiset.card_add] at hcards
    have hcard8 : ((initState 8).pool).card = 8 := by decide
    constructor
    · omega
    · omega
  · refine ⟨⟨0, [{0}, {1}, {2}, {3}, {0}, {1}, {2}, {3}]⟩,
      ⟨([3, 2, 1, 0, 3, 2, 1, 0] : List Nat), List.replicate 8 0⟩, ?_, ?_,
      rfl, by decide, by decide, by decide, by decide⟩
    · exact .head (pstep_acquire_to _
          ⟨([1, 2, 3, 0, 1, 2, 3] : List Nat), [{0}, 0, 0, 0, 0, 0, 0, 0]⟩
          0 0 (by decide) (by decide) (by decide))
        (.head (pstep_acquire_to _
          ⟨([2, 3, 0, 1, 2, 3] : List Nat), [{0}, {1}, 0, 0, 0, 0, 0, 0]⟩
          1 1 (by decide) (by decide) (by decide))
        (.head (pstep_acquire_to _
          ⟨([3, 0, 1, 2, 3] : List Nat), [{0}, {1}, {2}, 0, 0, 0, 0, 0]⟩
          2 2 (by decide) (by decide) (by decide))
        (.head (pstep_acquire_to _
          ⟨([0, 1, 2, 3] : List Nat), [{0}, {1}, {2}, {3}, 0, 0, 0, 0]⟩
          3 3 (by decide) (by decide) (by decide))
        (.head (pstep_acquire_to _
          ⟨([1, 2, 3] : List Nat), [{0}, {1}, {2}, {3}, {0}, 0, 0, 0]⟩
          4 0 (by decide) (by decide) (by decide))
        (.head (pstep_acquire_to _
          ⟨([2, 3] : List Nat), [{0}, {1}, {2}, {3}, {0}, {1}, 0, 0]⟩
          5 1 (by decide) (by decide) (by decide))
        (.head (pstep_acquire_to _
          ⟨([3] : List Nat), [{0}, {1}, {2}, {3}, {0}, {1}, {2}, 0]⟩
          6 2 (by decide) (by decide) (by decide))
        (.head (pstep_acquire_to _
          ⟨0, [{0}, {1}, {2}, {3}, {0}, {1}, {2}, {3}]⟩
          7 3 (by decide) (by decide) (by decide))
        .refl)))))))
    · exact .head (pstep_release_to _
          ⟨([0] : List Nat), [0, {1}, {2}, {3}, {0}, {1}, {2}, {3}]⟩
          0 0 (by decide) (by decide) (by decide))
        (.head (pstep_release_to _
          ⟨([1, 0] : List Nat), [0, 0, {2}, {3}, {0}, {1}, {2}, {3}]⟩
          1 1 (by decide) (by decide) (by decide))
        (.head (pstep_release_to _
          ⟨([2, 1, 0] : List Nat), [0, 0, 0, {3}, {0}, {1}, {2}, {3}]⟩
          2 2 (by decide) (by decide) (by decide))
        (.head (pstep_release_to _
          ⟨([3, 2, 1, 0] : List Nat), [0, 0, 0, 0, {0}, {1}, {2}, {3}]⟩
          3 3 (by decide) (by decide) (by decide))
        (.head (pstep_release_to _
          ⟨([0, 3, 2, 1, 0] : List Nat), [0, 0, 0, 0, 0, {1}, {2}, {3}]⟩
          4 0 (by decide) (by decide) (by decide))
        (.head (pstep_release_to _
          ⟨([1, 0, 3, 2, 1, 0] : List Nat), [0, 0, 0, 0, 0, 0, {2}, {3}]⟩
          5 1 (by decide) (by decide) (by decide))
        (.head (pstep_release_to _
          ⟨([2, 1, 0, 3, 2, 1, 0] : List Nat), [0, 0, 0, 0, 0, 0, 0, {3}]⟩
          6 2 (by decide) (by decide) (by decide))
        (.head (pstep_release_to _
          ⟨([3, 2, 1, 0, 3, 2, 1, 0] : List Nat), List.replicate 8 0⟩
          7 3 (by decide) (by decide) (by decide))
        .refl)))))))

theorem c5_pool_round_trip_witness :
    (heldSum (initState 8)).card ≤ 8
    ∧ (initState 8).pool.card + (heldSum (initState 8)).card = 8 :=
  c5_pool_round_trip.1 (initState 8) Relation.ReflTransGen.refl

/-- C8: in every reachable state, the pool plus everything held by the
workers is exactly the initial token multiset — each `acquire` atomically
removes one token occurrence, so the workers collectively never hold more
occurrences of any device than were put into the pool, and a token removed
by one worker's acquire is outstanding for that worker alone until it is
released back. -/
theorem c8_atomic_acquire_no_double_hold (s : PoolState)
    (h : PReach (initState 8) s) :
    s.pool + heldSum s = (initState 8).pool
    ∧ (∀ d, s.pool.count d + (heldSum s).count d = ((initState 8).pool).count d)
    ∧ (∀ d, (heldSum s).count d ≤ ((initState 8).pool).count d)
    ∧ heldSum s = (initState 8).pool - s.pool := by
  have hc := (preach_conserve h).1
  have hz : heldSum (initState 8) = 0 := by decide
  rw [hz, add_zero] at hc
  refine ⟨hc, ?_, ?_, ?_⟩
  · intro d
    rw [← hc, Multiset.count_add]
  · intro d
    rw [← hc, Multiset.count_add]
    omega
  · rw [← hc]
    exact (add_tsub_cancel_left s.pool (heldSum s)).symm

theorem c8_atomic_acquire_no_double_hold_witness :
    (initState 8).pool + heldSum (initState 8) = (initState 8).pool
    ∧ (heldSum (initState 8)).count 0 ≤ ((initState 8).pool).count 0 := by
  have h := c8_atomic_acquire_no_double_hold (initState 8) Relation.ReflTransGen.refl
  exact ⟨h.1, h.2.2.1 0⟩

/-- C6: the string passed to `os.system` for a task is, in order: the
`CUDA_VISIBLE_DEVICES` assignment with the chosen device index, the fixed
base invocation, then `--env`, the variant flag, `--me_type`, `--maskp`,
`--batch-size`, `--num_timesteps` (from the per-environment table), and
finally the output tag interpolated from environment tag, variant-flag
tag, estimator type, mask probability and batch size. -/
theorem c6_invocation_structure (c : Config) (x : Combo) (device ts : Nat)
    (nm : String)
    (hts : c.timestamp_map.lookup x.env = some ts)
    (hnm : c.env_name_map.lookup x.env = some nm) :
    (makeCommand c x).map (fullInvocation device) =
      some ("CUDA_VISIBLE_DEVICES=" ++ toString device ++ " "
        ++ (x.command
            ++ "--env " ++ x.env
            ++ " " ++ x.svrl
            ++ " --me_type " ++ x.me_type
            ++ " --maskp " ++ x.maskp
            ++ " --batch-size " ++ toString x.batch_size
            ++ " --num_timesteps " ++ toString ts
            ++ " " ++ (nm ++ "_dqn_" ++ svrl_string x.svrl ++ "_" ++ x.me_type
                       ++ "_" ++ x.maskp ++ "_" ++ toString x.batch_size))) := by
  unfold makeCommand makeTag
  rw [hts, hnm]
  rfl

theorem c6_invocation_structure_witness :
    (makeCommand theConfig
        ⟨"AlienNoFrameskip-v4", "svt", "0.5", 64, "--svrl",
          "python3 main.py "⟩).map (fullInvocation 2)
      = some "CUDA_VISIBLE_DEVICES=2 python3 main.py --env AlienNoFrameskip-v4 --svrl --me_type svt --maskp 0.5 --batch-size 64 --num_timesteps 15000000 alien_dqn_svrl_svt_0.5_64" := by
  rw [c6_invocation_structure theConfig
    ⟨"AlienNoFrameskip-v4", "svt", "0.5", 64, "--svrl", "python3 main.py "⟩
    2 15000000 "alien" (by decide) (by decide)]
  decide

/-- C7: enumeration is deterministic — the run's submitted command
sequence does not depend on the random stream, which only feeds the
per-worker jitter sleep: the worker's state outcome is the same for any
two drawn jitter durations. -/
theorem c7_enumeration_deterministic (c : Config) (r1 r2 : Nat → ℚ)
    (j1 j2 : ℚ) (fp : FailPoint) (pool : List Nat) :
    runEnumWithRand c r1 = runEnumWithRand c r2
    ∧ (workerWithJitter j1 fp pool).map Prod.snd
        = (workerWithJitter j2 fp pool).map Prod.snd := by
  refine ⟨rfl, ?_⟩
  unfold workerWithJitter
  cases worker fp pool <;> rfl

/-- C10: enumeration never mutates the configuration (the embedding is
pure: `theConfig` and `COMMANDS` are constants), and each combination's
command is a fresh copy of that combination's base string with a suffix
built from that combination alone — no text accumulates from earlier
combinations, and every submitted command of the declared configuration
begins with `"python3 main.py "`. -/
theorem c10_fresh_command_per_combination (c : Config)
    (h : ∀ x ∈ combos c, (makeCommand c x).isSome) :
    ((runEnum c).submitted = (combos c).filterMap (makeCommand c)
      ∧ ∀ x ∈ combos c, ∃ suf, makeCommand c x = some (x.command ++ suf))
    ∧ ((∀ cmd ∈ (runEnum theConfig).submitted,
          ∃ suf, cmd = "python3 main.py " ++ suf)
      ∧ theConfig.commands = COMMANDS ∧ COMMANDS = ["python3 main.py "]) := by
  refine ⟨⟨?_, ?_⟩, ?_, rfl, rfl⟩
  · rw [runEnum, runSim_all_some c _ h]
  · intro x hx
    cases hts : c.timestamp_map.lookup x.env with
    | none =>
      exfalso
      have h2 := h x hx
      rw [makeCommand, hts] at h2
      simp at h2
    | some ts =>
      cases hnm : c.env_name_map.lookup x.env with
      | none =>
        exfalso
        have h2 := h x hx
        rw [makeCommand, makeTag, hts, hnm] at h2
        simp at h2
      | some nm =>
        refine ⟨"--env " ++ x.env
            ++ " " ++ x.svrl
            ++ " --me_type " ++ x.me_type
            ++ " --maskp " ++ x.maskp
            ++ " --batch-size " ++ toString x.batch_size
            ++ " --num_timesteps " ++ toString ts
            ++ " " ++ (nm ++ "_dqn_" ++ svrl_string x.svrl ++ "_" ++ x.me_type
                       ++ "_" ++ x.maskp ++ "_" ++ toString x.batch_size), ?_⟩
        rw [makeCommand, makeTag, hts, hnm]
        simp only [Option.map_some']
        congr 1
        simp only [String.append_assoc]
  · intro cmd hcmd
    have hlist : (runEnum theConfig).submitted =
        ["python3 main.py --env AlienNoFrameskip-v4 --svrl --me_type svt --maskp 0.5 --batch-size 64 --num_timesteps 15000000 alien_dqn_svrl_svt_0.5_64",
         "python3 main.py --env AtlantisNoFrameskip-v4 --svrl --me_type svt --maskp 0.5 --batch-size 64 --num_timesteps 30000000 atlantis_dqn_svrl_svt_0.5_64",
         "python3 main.py --env CrazyClimberNoFrameskip-v4 --svrl --me_type svt --maskp 0.5 --batch-size 64 --num_timesteps 15000000 crazy_climber_dqn_svrl_svt_0.5_64",
         "python3 main.py --env IceHockeyNoFrameskip-v4 --svrl --me_type svt --maskp 0.5 --batch-size 64 --num_timesteps 15000000 ice_hockey_dqn_svrl_svt_0.5_64"] := by
      decide
    rw [hlist] at hcmd
    simp only [List.mem_cons, List.not_mem_nil, or_false] at hcmd
    rcases hcmd with rfl | rfl | rfl | rfl
    · exact ⟨"--env AlienNoFrameskip-v4 --svrl --me_type svt --maskp 0.5 --batch-size 64 --num_timesteps 15000000 alien_dqn_svrl_svt_0.5_64", by decide⟩
    · exact ⟨"--env AtlantisNoFrameskip-v4 --svrl --me_type svt --maskp 0.5 --batch-size 64 --num_timesteps 30000000 atlantis_dqn_svrl_svt_0.5_64", by decide⟩
    · exact ⟨"--env CrazyClimberNoFrameskip-v4 --svrl --me_type svt --maskp 0.5 --batch-size 64 --num_timesteps 15000000 crazy_climber_dqn_svrl_svt_0.5_64", by decide⟩
    · exact ⟨"--env IceHockeyNoFrameskip-v4 --svrl --me_type svt --maskp 0.5 --batch-size 64 --num_timesteps 15000000 ice_hockey_dqn_svrl_svt_0.5_64", by decide⟩

theorem c10_fresh_command_per_combination_witness :
    (runEnum theConfig).submitted = (combos theConfig).filterMap (makeCommand theConfig)
    ∧ ∃ suf, makeCommand theConfig
        ⟨"AlienNoFrameskip-v4", "svt", "0.5", 64, "--svrl", "python3 main.py "⟩
      = some ("python3 main.py " ++ suf) := by
  have h := c10_fresh_command_per_combination theConfig (by decide)
  exact ⟨h.1.1,
    h.1.2 ⟨"AlienNoFrameskip-v4", "svt", "0.5", 64, "--svrl", "python3 main.py "⟩
      (by decide)⟩
